import Mathlib

/-!
Shallow embedding of the forward-mode automatic-differentiation engine in
`src/05Framework/02AutoDiff/05ForwardMode.ipynb` (the Python class
`ADTangent`).  Python floats are modelled as real numbers; the numpy
functions `np.log`, `np.sin`, `np.cos` are modelled by `Real.log`,
`Real.sin`, `Real.cos` (note `np.log` on a negative argument yields NaN
with only a runtime warning; NaN has no counterpart in `ℝ`, a point that
matters only for the domain-error analysis, where it is discussed).
-/

noncomputable section

/-- The dual-number class `ADTangent` of the notebook: field `x` is the
primal value of the variable, field `dx` the tangent (derivative) value
carried along with it.  Both are set in `__init__` and never assigned
again. -/
structure ADTangent where
  x : ℝ
  dx : ℝ

/-- A Python operand passed to one of the binary dunder methods of
`ADTangent`: an `ADTangent` instance, a `float`, an `int`, or any other
object (a string, the class object returned by a failed operation, ...).
A Python `int` is not an instance of `float`, so the notebook test
`isinstance(other, float)` sends integer operands to the `else`
branch. -/
inductive PyVal where
  | dual (a : ADTangent)
  | float (c : ℝ)
  | int (n : ℤ)
  | other

/-- The value a binary dunder method of `ADTangent` returns: either a new
`ADTangent` instance, or the class object `NotImplementedError` itself,
which the `else` branch of each method returns (the source says
`return NotImplementedError`, not `raise`). -/
inductive PyRet where
  | ad (a : ADTangent)
  | notImplClass

/-- Method `ADTangent.__add__` of the notebook: on an `ADTangent` operand,
`x = self.x + other.x` and `dx = self.dx + other.dx`; on a `float`
operand, `x = self.x + other` and `dx = self.dx`; otherwise the method
returns the class `NotImplementedError`. -/
def ADTangent.add (self : ADTangent) (other : PyVal) : PyRet :=
  match other with
  | .dual b => .ad ⟨self.x + b.x, self.dx + b.dx⟩
  | .float c => .ad ⟨self.x + c, self.dx⟩
  | .int _ => .notImplClass
  | .other => .notImplClass

/-- Method `ADTangent.__sub__` of the notebook: on an `ADTangent` operand,
`x = self.x - other.x` and `dx = self.dx - other.dx`; on a `float`
operand, `x = self.x - other` and `dx = self.dx`; otherwise the method
returns the class `NotImplementedError`. -/
def ADTangent.sub (self : ADTangent) (other : PyVal) : PyRet :=
  match other with
  | .dual b => .ad ⟨self.x - b.x, self.dx - b.dx⟩
  | .float c => .ad ⟨self.x - c, self.dx⟩
  | .int _ => .notImplClass
  | .other => .notImplClass

/-- Method `ADTangent.__mul__` of the notebook: on an `ADTangent` operand,
`x = self.x * other.x` and `dx = self.x * other.dx + self.dx * other.x`;
on a `float` operand, `x = self.x * other` and `dx = self.dx * other`;
otherwise the method returns the class `NotImplementedError`. -/
def ADTangent.mul (self : ADTangent) (other : PyVal) : PyRet :=
  match other with
  | .dual b => .ad ⟨self.x * b.x, self.x * b.dx + self.dx * b.x⟩
  | .float c => .ad ⟨self.x * c, self.dx * c⟩
  | .int _ => .notImplClass
  | .other => .notImplClass

/-- Method `ADTangent.log` of the notebook: `x = np.log(self.x)` and
`dx = 1 / self.x * self.dx`.  There is no domain check of any kind. -/
def ADTangent.log (self : ADTangent) : ADTangent :=
  ⟨Real.log self.x, 1 / self.x * self.dx⟩

/-- Method `ADTangent.sin` of the notebook: `x = np.sin(self.x)` and
`dx = self.dx * np.cos(self.x)`. -/
def ADTangent.sin (self : ADTangent) : ADTangent :=
  ⟨Real.sin self.x, self.dx * Real.cos self.x⟩

/-- Modelled from the spec: the `div(a,b)` row of the operator table
(primal `x_a / x_b`, tangent `(dx_a*x_b - x_a*dx_b) / x_b^2`).  The
notebook defines no division method; the interface section of the spec is the
only description of it. -/
def ADTangent.div (a b : ADTangent) : ADTangent :=
  ⟨a.x / b.x, (a.dx * b.x - a.x * b.dx) / b.x ^ 2⟩

/-- Modelled from the spec: the `cos(a)` row of the operator table
(primal `cos(x_a)`, tangent `-dx_a * sin(x_a)`).  The notebook defines no
`cos` method. -/
def ADTangent.cos (a : ADTangent) : ADTangent :=
  ⟨Real.cos a.x, -a.dx * Real.sin a.x⟩

/-- Modelled from the spec: the `exp(a)` row of the operator table
(primal `exp(x_a)`, tangent `dx_a * exp(x_a)`).  The notebook defines no
`exp` method. -/
def ADTangent.exp (a : ADTangent) : ADTangent :=
  ⟨Real.exp a.x, a.dx * Real.exp a.x⟩

/-- Expressions over the operator layer: the two seed variables of the
driver, and the overloaded operations of the notebook, each binary operation
taken either with a second expression operand or with a `float` constant
operand (the two live branches of the dunder methods). -/
inductive Expr where
  | var1
  | var2
  | add (e₁ e₂ : Expr)
  | addC (e : Expr) (c : ℝ)
  | sub (e₁ e₂ : Expr)
  | subC (e : Expr) (c : ℝ)
  | mul (e₁ e₂ : Expr)
  | mulC (e : Expr) (c : ℝ)
  | log (e : Expr)
  | sin (e : Expr)

/-- Evaluation of an expression over the operator layer, given the two
seed dual numbers bound to the variables, following ordinary expression
evaluation order.  Operator-layer calls on dual or float operands always
take a constructing branch, so the fall-through cases (an intermediate
that is the `NotImplementedError` class reaching the next call) are
unreachable for these expressions. -/
def Expr.eval (x1 x2 : ADTangent) : Expr → PyRet
  | .var1 => .ad x1
  | .var2 => .ad x2
  | .add a b =>
    match a.eval x1 x2, b.eval x1 x2 with
    | .ad u, .ad v => u.add (.dual v)
    | _, _ => .notImplClass
  | .addC a c =>
    match a.eval x1 x2 with
    | .ad u => u.add (.float c)
    | r => r
  | .sub a b =>
    match a.eval x1 x2, b.eval x1 x2 with
    | .ad u, .ad v => u.sub (.dual v)
    | _, _ => .notImplClass
  | .subC a c =>
    match a.eval x1 x2 with
    | .ad u => u.sub (.float c)
    | r => r
  | .mul a b =>
    match a.eval x1 x2, b.eval x1 x2 with
    | .ad u, .ad v => u.mul (.dual v)
    | _, _ => .notImplClass
  | .mulC a c =>
    match a.eval x1 x2 with
    | .ad u => u.mul (.float c)
    | r => r
  | .log a =>
    match a.eval x1 x2 with
    | .ad u => .ad u.log
    | r => r
  | .sin a =>
    match a.eval x1 x2 with
    | .ad u => .ad u.sin
    | r => r

/-- The expression of the driver cell of the notebook:
`f = ADTangent.log(x1) + x1 * x2 - ADTangent.sin(x2)`. -/
def fExpr : Expr := .sub (.add (.log .var1) (.mul .var1 .var2)) (.sin .var2)

/-- Running a sequence of evaluation passes of the same expression, each
pass with its own pair of seed dual numbers, in order (as the notebook
driver is re-run with fresh seeds to differentiate with respect to the
other variable). -/
def runPasses (e : Expr) : List (ADTangent × ADTangent) → List PyRet
  | [] => []
  | p :: ps => e.eval p.1 p.2 :: runPasses e ps

/-- Heap of Python `ADTangent` objects: a list of (x, dx) field records,
a reference being an index into the list.  Every method of the notebook
class only reads `self.x`, `self.dx`, `other.x`, `other.dx` (it contains
no field assignment) and ends in the constructor call `ADTangent(x, dx)`,
a fresh allocation, which this model renders as appending the constructed
record and returning its index. -/
abbrev Heap := List ADTangent

/-- A binary dunder method run against the heap: read the operand objects
at references `i` and `j`, run the method, allocate the result.  The
returned index is the reference of the result (the dual-operand branch always
constructs; the sentinel branch allocates nothing). -/
def heapBin (op : ADTangent → PyVal → PyRet) (s : Heap) (i j : Nat) :
    Heap × Nat :=
  match op (s.getD i ⟨0, 0⟩) (.dual (s.getD j ⟨0, 0⟩)) with
  | .ad r => (s ++ [r], s.length)
  | .notImplClass => (s, s.length)

/-- A unary method (`log`, `sin`) run against the heap: read the object at
reference `i`, run the method, allocate the freshly constructed result. -/
def heapUn (op : ADTangent → ADTangent) (s : Heap) (i : Nat) :
    Heap × Nat :=
  (s ++ [op (s.getD i ⟨0, 0⟩)], s.length)

end

/-- C1: for all dual numbers a and b, `mul(a,b)` has primal
`a.primal * b.primal` and tangent `a.primal * b.tangent + a.tangent * b.primal`
(the product rule), and for a real (float) constant c, `mul(a,c)` has
primal `a.primal * c` and tangent `a.tangent * c`.  Here primal is the
field `x` and tangent the field `dx`. -/
theorem C1_mul_product_rule (a b : ADTangent) (c : ℝ) :
    a.mul (.dual b) = .ad ⟨a.x * b.x, a.x * b.dx + a.dx * b.x⟩ ∧
    a.mul (.float c) = .ad ⟨a.x * c, a.dx * c⟩ :=
  ⟨rfl, rfl⟩

/-- C2: for all dual numbers a and b, `add(a,b)` has primal
`a.primal + b.primal` and tangent `a.tangent + b.tangent`, `sub(a,b)` has
primal `a.primal - b.primal` and tangent `a.tangent - b.tangent`; for a
real (float) constant c, `add(a,c)` has primal `a.primal + c` with tangent
`a.tangent`, and `sub(a,c)` has primal `a.primal - c` with tangent
`a.tangent`. -/
theorem C2_add_sub_rules (a b : ADTangent) (c : ℝ) :
    a.add (.dual b) = .ad ⟨a.x + b.x, a.dx + b.dx⟩ ∧
    a.sub (.dual b) = .ad ⟨a.x - b.x, a.dx - b.dx⟩ ∧
    a.add (.float c) = .ad ⟨a.x + c, a.dx⟩ ∧
    a.sub (.float c) = .ad ⟨a.x - c, a.dx⟩ :=
  ⟨rfl, rfl, rfl, rfl⟩

/-- C3: for every dual number a, `log(a)` has primal `ln(a.primal)` and
tangent `a.tangent / a.primal` (the code computes `1 / self.x * self.dx`,
equal to `dx / x` over the reals), and `sin(a)` has primal
`sin(a.primal)` and tangent `a.tangent * cos(a.primal)`.  `np.log` is
modelled by `Real.log`; off the domain `0 < a.x` the behaviour of the code is
the subject of the domain-error analysis. -/
theorem C3_log_sin_rules (a : ADTangent) :
    a.log = ⟨Real.log a.x, a.dx / a.x⟩ ∧
    a.sin = ⟨Real.sin a.x, a.dx * Real.cos a.x⟩ := by
  refine ⟨?_, rfl⟩
  simp only [ADTangent.log, ADTangent.mk.injEq, true_and]
  ring

/-- C5: the binary operations do not fail on an operand that is neither an
`ADTangent` nor a `float`: each returns the class object
`NotImplementedError` as its result value — a sentinel in place of a
raised, propagated error.  This theorem evaluates the code on such an
operand and exhibits the sentinel result, witnessing the divergence from
the claim. -/
theorem C5_sentinel_instead_of_error (a : ADTangent) :
    a.add .other = .notImplClass ∧
    a.sub .other = .notImplClass ∧
    a.mul .other = .notImplClass :=
  ⟨rfl, rfl, rfl⟩

/-- C6: `log` on the dual number with primal `-1` and tangent `1` returns
an ordinary `ADTangent` value — with the finite tangent
`1 / (-1) * 1 = -1` — and signals nothing: the type of the method is
`ADTangent → ADTangent` with no error channel at all (in Python,
`np.log(-1.0)` yields NaN with only a runtime warning and the method
returns normally).  No DomainError is surfaced. -/
theorem C6_log_negative_silent :
    ADTangent.log ⟨-1, 1⟩ = ⟨Real.log (-1), -1⟩ := by
  simp only [ADTangent.log, ADTangent.mk.injEq, true_and]
  norm_num

/-- C7: the spec-modelled operations satisfy the operator table:
`div(a,b)` has primal `x_a / x_b` and tangent
`(dx_a*x_b - x_a*dx_b) / x_b^2`; `cos(a)` has primal `cos(x_a)` and
tangent `-dx_a * sin(x_a)`; `exp(a)` has primal `exp(x_a)` and tangent
`dx_a * exp(x_a)`; `cos` and `exp` are of type `ADTangent → ADTangent`.
The notebook itself defines none of these three operations. -/
theorem C7_div_cos_exp_rules (a b : ADTangent) :
    a.div b = ⟨a.x / b.x, (a.dx * b.x - a.x * b.dx) / b.x ^ 2⟩ ∧
    a.cos = ⟨Real.cos a.x, -a.dx * Real.sin a.x⟩ ∧
    a.exp = ⟨Real.exp a.x, a.dx * Real.exp a.x⟩ :=
  ⟨rfl, rfl, rfl⟩

/-- C10: for every dual number a and Python integer n, the operations
`a + n`, `a - n` and `a * n` take the `else` branch (a Python `int` is
not an instance of `float`, so only float constants are accepted as real
constants) and the branch returns the class `NotImplementedError` itself
as the result of the operation, not an `ADTangent`. -/
theorem C10_int_operand_takes_else_branch (a : ADTangent) (n : ℤ) :
    a.add (.int n) = .notImplClass ∧
    a.sub (.int n) = .notImplClass ∧
    a.mul (.int n) = .notImplClass :=
  ⟨rfl, rfl, rfl⟩

/-- C8: evaluation is deterministic and has no hidden state: evaluating an
expression with equal seed pairs yields identical results, and a sequence
of evaluation passes splits into the independent results of its parts —
the passes run before a given pass do not change its result. -/
theorem C8_deterministic_no_hidden_state (e : Expr)
    (x1 x2 y1 y2 : ADTangent) (l₁ l₂ : List (ADTangent × ADTangent))
    (h1 : x1 = y1) (h2 : x2 = y2) :
    e.eval x1 x2 = e.eval y1 y2 ∧
    runPasses e (l₁ ++ l₂) = runPasses e l₁ ++ runPasses e l₂ := by
  subst h1
  subst h2
  refine ⟨rfl, ?_⟩
  induction l₁ with
  | nil => rfl
  | cons p ps ih => simpa [runPasses] using ih

/-- C8 witness: the driver expression at the seeds of the notebook, with the
two passes of the notebook run in sequence. -/
theorem C8_deterministic_no_hidden_state_witness :
    (⟨2, 1⟩ : ADTangent) = ⟨2, 1⟩ ∧
    fExpr.eval ⟨2, 1⟩ ⟨5, 0⟩ = fExpr.eval ⟨2, 1⟩ ⟨5, 0⟩ ∧
    runPasses fExpr ([(⟨2, 1⟩, ⟨5, 0⟩)] ++ [(⟨2, 0⟩, ⟨5, 1⟩)]) =
      runPasses fExpr [(⟨2, 1⟩, ⟨5, 0⟩)] ++
        runPasses fExpr [(⟨2, 0⟩, ⟨5, 1⟩)] :=
  ⟨rfl,
    C8_deterministic_no_hidden_state fExpr ⟨2, 1⟩ ⟨5, 0⟩ ⟨2, 1⟩ ⟨5, 0⟩
      [(⟨2, 1⟩, ⟨5, 0⟩)] [(⟨2, 0⟩, ⟨5, 1⟩)] rfl rfl⟩

/-- C9: every operation of the operator layer leaves the fields of all
objects already on the heap — in particular its operands — unchanged (the
old heap is exactly the prefix of the new one), and returns the reference
`s.length` of a newly allocated `ADTangent`, constructed past the end of
the old heap: no existing dual number is mutated. -/
theorem C9_no_mutation_fresh_allocation (s : Heap) (i j : Nat) :
    ((heapBin ADTangent.add s i j).1.take s.length = s ∧
      (heapBin ADTangent.add s i j).2 = s.length) ∧
    ((heapBin ADTangent.sub s i j).1.take s.length = s ∧
      (heapBin ADTangent.sub s i j).2 = s.length) ∧
    ((heapBin ADTangent.mul s i j).1.take s.length = s ∧
      (heapBin ADTangent.mul s i j).2 = s.length) ∧
    ((heapUn ADTangent.log s i).1.take s.length = s ∧
      (heapUn ADTangent.log s i).2 = s.length) ∧
    ((heapUn ADTangent.sin s i).1.take s.length = s ∧
      (heapUn ADTangent.sin s i).2 = s.length) := by
  refine ⟨⟨?_, rfl⟩, ⟨?_, rfl⟩, ⟨?_, rfl⟩, ⟨?_, rfl⟩, ⟨?_, rfl⟩⟩ <;>
    simp [heapBin, heapUn, ADTangent.add, ADTangent.sub, ADTangent.mul]

/-- Shift identity used to estimate the driver numbers: the cosine at
`5 - 3π/2` is the negated sine at 5. -/
theorem cos_shift_five : Real.cos (5 - 3 * Real.pi / 2) = -Real.sin 5 := by
  have h : (3 : ℝ) * Real.pi / 2 = Real.pi + Real.pi / 2 := by ring
  rw [h, Real.cos_sub, Real.cos_add, Real.sin_add]
  simp [Real.cos_pi, Real.sin_pi, Real.cos_pi_div_two, Real.sin_pi_div_two]

/-- Shift identity: the sine at `5 - 3π/2` is the cosine at 5. -/
theorem sin_shift_five : Real.sin (5 - 3 * Real.pi / 2) = Real.cos 5 := by
  have h : (3 : ℝ) * Real.pi / 2 = Real.pi + Real.pi / 2 := by ring
  rw [h, Real.sin_sub, Real.cos_add, Real.sin_add]
  simp [Real.cos_pi, Real.sin_pi, Real.cos_pi_div_two, Real.sin_pi_div_two]

/-- Numeric range of the shifted argument `5 - 3π/2`. -/
theorem shift_arg_gt : (0.2876105 : ℝ) < 5 - 3 * Real.pi / 2 := by
  linarith [Real.pi_lt_d6]

/-- Numeric range of the shifted argument `5 - 3π/2`, upper half. -/
theorem shift_arg_lt : 5 - 3 * Real.pi / 2 < 0.287612 := by
  linarith [Real.pi_gt_d6]

/-- The shifted argument lies in the unit interval, where the quartic
Taylor bounds on sine and cosine apply. -/
theorem shift_arg_abs_le : |5 - 3 * Real.pi / 2| ≤ 1 := by
  rw [abs_le]
  constructor <;> linarith [Real.pi_gt_d6, Real.pi_lt_d6]

/-- Square of the shifted argument. -/
theorem shift_arg_sq : (0.0827 : ℝ) < (5 - 3 * Real.pi / 2) ^ 2 ∧
    (5 - 3 * Real.pi / 2) ^ 2 < 0.08273 := by
  constructor <;> nlinarith [shift_arg_gt, shift_arg_lt]

/-- Fourth power of the shifted argument. -/
theorem shift_arg_pow4 : (0 : ℝ) ≤ (5 - 3 * Real.pi / 2) ^ 4 ∧
    (5 - 3 * Real.pi / 2) ^ 4 < 0.006845 := by
  constructor
  · positivity
  · nlinarith [shift_arg_sq.1, shift_arg_sq.2]

/-- Cube of the shifted argument. -/
theorem shift_arg_cube : (0.0237 : ℝ) < (5 - 3 * Real.pi / 2) ^ 3 ∧
    (5 - 3 * Real.pi / 2) ^ 3 < 0.0238 := by
  constructor <;>
    nlinarith [shift_arg_gt, shift_arg_lt, shift_arg_sq.1, shift_arg_sq.2]

/-- Numeric bounds for the cosine at the shifted argument, hence for
`sin 5 = -cos (5 - 3π/2)`. -/
theorem cos_shift_bounds : (0.9581 : ℝ) < Real.cos (5 - 3 * Real.pi / 2) ∧
    Real.cos (5 - 3 * Real.pi / 2) < 0.9591 := by
  have htpos : (0 : ℝ) < 5 - 3 * Real.pi / 2 := by linarith [shift_arg_gt]
  have h := Real.cos_bound shift_arg_abs_le
  rw [abs_of_pos htpos, abs_le] at h
  constructor <;>
    linarith [h.1, h.2, shift_arg_sq.1, shift_arg_sq.2, shift_arg_pow4.1,
      shift_arg_pow4.2]

/-- Numeric bounds for the sine at the shifted argument, hence for
`cos 5 = sin (5 - 3π/2)`. -/
theorem sin_shift_bounds : (0.2830 : ℝ) < Real.sin (5 - 3 * Real.pi / 2) ∧
    Real.sin (5 - 3 * Real.pi / 2) < 0.2843 := by
  have htpos : (0 : ℝ) < 5 - 3 * Real.pi / 2 := by linarith [shift_arg_gt]
  have h := Real.sin_bound shift_arg_abs_le
  rw [abs_of_pos htpos, abs_le] at h
  constructor <;>
    linarith [h.1, h.2, shift_arg_gt, shift_arg_lt, shift_arg_cube.1,
      shift_arg_cube.2, shift_arg_pow4.1, shift_arg_pow4.2]

/-- C4: the driver expression `f = log(x1) + x1*x2 - sin(x2)`, evaluated
with seeds `x1 = (2, 1)` and `x2 = (5, 0)`, yields a dual number with
primal within `1/1000` of `11.6521` and tangent exactly `5.5`;
re-seeded with `x1 = (2, 0)` and `x2 = (5, 1)` it yields the identical
primal and a tangent within `1/1000` of `1.7163`. -/
theorem C4_end_to_end_scenario :
    ∃ r1 r2 : ADTangent,
      fExpr.eval ⟨2, 1⟩ ⟨5, 0⟩ = PyRet.ad r1 ∧
      fExpr.eval ⟨2, 0⟩ ⟨5, 1⟩ = PyRet.ad r2 ∧
      r1.dx = 5.5 ∧ |r1.x - 11.6521| < 1 / 1000 ∧
      r2.x = r1.x ∧ |r2.dx - 1.7163| < 1 / 1000 := by
  refine ⟨⟨Real.log 2 + 2 * 5 - Real.sin 5,
            1 / 2 * 1 + (2 * 0 + 1 * 5) - 0 * Real.cos 5⟩,
          ⟨Real.log 2 + 2 * 5 - Real.sin 5,
            1 / 2 * 0 + (2 * 1 + 0 * 5) - 1 * Real.cos 5⟩,
          rfl, rfl, ?_, ?_, rfl, ?_⟩
  · show (1 : ℝ) / 2 * 1 + (2 * 0 + 1 * 5) - 0 * Real.cos 5 = 5.5
    norm_num
  · show |Real.log 2 + 2 * 5 - Real.sin 5 - 11.6521| < 1 / 1000
    have hs : Real.sin 5 = -Real.cos (5 - 3 * Real.pi / 2) := by
      linarith [cos_shift_five]
    rw [hs, abs_lt]
    constructor <;>
      linarith [cos_shift_bounds.1, cos_shift_bounds.2, Real.log_two_gt_d9,
        Real.log_two_lt_d9]
  · show |1 / 2 * 0 + (2 * 1 + 0 * 5) - 1 * Real.cos 5 - 1.7163| < 1 / 1000
    have hc : Real.cos 5 = Real.sin (5 - 3 * Real.pi / 2) := sin_shift_five.symm
    rw [hc, abs_lt]
    constructor <;> linarith [sin_shift_bounds.1, sin_shift_bounds.2]
